import Mathlib

/-!
Shallow embedding of the routing page of the repository
(source file src/src/app/route/page.tsx).

The source is a React page.  Its algorithmic content is:
  - a hard-coded catalog SIMULATED_HOSPITALS of three facilities;
  - simulateRouteCalculation, which ignores its inputs and returns a
    fixed list of three RouteInfo records, the first marked primary;
  - an effect that reads query parameters (lat, lng, address,
    emergencyType), rejects a missing emergency type, builds a
    UserLocation from the parameters (JavaScript truthiness and
    parseFloat semantics), and runs an asynchronous fetch whose
    continuation stores routes, an error message for an empty result,
    or an error message for a thrown computation error.

JavaScript numbers that can be NaN or null are modelled by JsVal;
finite values are exact rationals.  Asynchronous completion is
modelled by an explicit event system: a submit event runs the
synchronous part of the effect and registers a pending completion,
and a complete event runs the continuation of one pending fetch.
-/

/-- A JavaScript number-or-null value: null, NaN, or a finite number
(modelled as an exact rational). -/
inductive JsVal where
  | null
  | nan
  | num (q : ℚ)
deriving DecidableEq

/-- The UserLocation record of the source: latitude and longitude are
number-or-null, address is a string. -/
structure UserLocation where
  latitude : JsVal
  longitude : JsVal
  address : String
deriving DecidableEq

/-- The Hospital record as used by the source data. -/
structure Hospital where
  id : String
  name : String
  address : String
  phone : String
  latitude : ℚ
  longitude : ℚ
deriving DecidableEq

/-- The RouteInfo record of the source: distance and time are
preformatted display strings, trafficStatus a descriptor string. -/
structure RouteInfo where
  id : String
  hospital : Hospital
  distance : String
  time : String
  trafficStatus : String
  isPrimary : Bool
deriving DecidableEq

/-- The query parameters read by the page effect; searchParams.get
returns a string or null, modelled by Option String. -/
structure QueryParams where
  lat : Option String
  lng : Option String
  address : Option String
  emergencyType : Option String
deriving DecidableEq

/-- JavaScript truthiness of a string-or-null: null and the empty
string are falsy, every other string is truthy. -/
def truthy : Option String → Bool
  | none => false
  | some s => !(s == "")

/-- Numeric value of a list of decimal digit characters. -/
def digitsToNat (ds : List Char) : ℕ :=
  ds.foldl (fun a c => a * 10 + (c.toNat - 48)) 0

/-- JavaScript whitespace test for the characters parseFloat skips. -/
def isJsSpace (c : Char) : Bool :=
  c == ' ' || c == '\t' || c == '\n' || c == '\r'

/-- JavaScript parseFloat on a list of characters: skip leading
whitespace, read an optional sign, then the longest prefix of the
form digits[.digits]; if no digit is read the result is NaN.
Trailing characters are ignored, so parseFloat of the string 3.2 km
is the number 3.2.  The value intDigits.fracDigits is the rational
(intDigits * 10 ^ k + fracDigits) / 10 ^ k with k fractional digits,
built with mkRat. -/
def parseFloatChars (cs : List Char) : JsVal :=
  let cs0 := cs.dropWhile isJsSpace
  let signed :=
    match cs0 with
    | '-' :: rest => (true, rest)
    | '+' :: rest => (false, rest)
    | _ => (false, cs0)
  let intDs := signed.2.takeWhile Char.isDigit
  let rest1 := signed.2.dropWhile Char.isDigit
  let fracDs :=
    match rest1 with
    | '.' :: r => r.takeWhile Char.isDigit
    | _ => []
  if intDs.isEmpty && fracDs.isEmpty then JsVal.nan
  else
    let mantissa : ℤ := digitsToNat intDs * 10 ^ fracDs.length + digitsToNat fracDs
    JsVal.num (mkRat (if signed.1 then -mantissa else mantissa) (10 ^ fracDs.length))

/-- JavaScript parseFloat on a string. -/
def parseFloat (s : String) : JsVal :=
  parseFloatChars s.data

/-- Left-pad the decimal digits of a number below 10000 with zeros to
width four (the fractional part of toFixed with four digits). -/
def padZeros4 (n : ℕ) : String :=
  (if n < 10 then "000" else if n < 100 then "00" else if n < 1000 then "0" else "")
    ++ toString n

/-- Render a scaled integer n as the decimal number n / 10000 with
exactly four digits after the point. -/
def fixed4OfInt (n : ℤ) : String :=
  (if n < 0 then "-" else "") ++ toString (n.natAbs / 10000) ++ "." ++ padZeros4 (n.natAbs % 10000)

/-- The scaled integer of toFixed with four digits: the floor of
q * 10000 + 1/2, computed on the numerator and denominator of q by
floor division, since (n/d) * 10000 + 1/2 = (20000 n + d) / (2 d). -/
def round4 (q : ℚ) : ℤ :=
  Int.fdiv (20000 * q.num + q.den) (2 * q.den)

/-- JavaScript toFixed with four digits on a finite number: round to
the nearest multiple of 1/10000, ties to the larger value. -/
def toFixed4 (q : ℚ) : String :=
  fixed4OfInt (round4 q)

/-- JavaScript toFixed with four digits on a number value; NaN prints
as NaN (null cannot reach toFixed in the modelled code). -/
def jsToFixed4 : JsVal → String
  | JsVal.num q => toFixed4 q
  | _ => "NaN"

/-- The error message the page sets when emergencyType is missing. -/
def missingTypeMsg : String := "Emergency type is missing."

/-- The error message the page sets when no location can be built. -/
def missingLocationMsg : String := "User location is missing."

/-- The error message the page sets when the calculation returns an
empty route list. -/
def noRoutesMsg : String := "Could not find any nearby medical facilities or routes."

/-- The error message the page sets when the calculation throws. -/
def routeFailMsg : String := "Failed to calculate routes. Please try again later."

/-- The location-building logic of the page effect: if both coordinate
parameters are truthy, build a coordinate location whose address is
the supplied address if truthy, else a label synthesized from the
parsed coordinates rendered with toFixed(4); else if the address
parameter is truthy, build an address-only location with null
coordinates; else no location. -/
def resolveLocation (lat lng address : Option String) : Option UserLocation :=
  if truthy lat && truthy lng then
    some { latitude := parseFloat (lat.getD ""),
           longitude := parseFloat (lng.getD ""),
           address :=
             if truthy address then address.getD ""
             else "Coords: " ++ jsToFixed4 (parseFloat (lat.getD "")) ++ ", "
                    ++ jsToFixed4 (parseFloat (lng.getD "")) }
  else if truthy address then
    some { latitude := JsVal.null, longitude := JsVal.null, address := address.getD "" }
  else
    none

/-- First simulated hospital of the source catalog; the coordinates
34.0522 and -118.2437 are written as explicit fractions. -/
def hosp1 : Hospital :=
  { id := "hosp1", name := "City General Hospital", address := "123 Main St, Cityville",
    phone := "555-1234", latitude := mkRat 340522 10000, longitude := mkRat (-1182437) 10000 }

/-- Second simulated hospital of the source catalog; the coordinates
34.0580 and -118.2500 are written as explicit fractions. -/
def hosp2 : Hospital :=
  { id := "hosp2", name := "St. Luke\x27s Medical Center", address := "456 Oak Ave, Cityville",
    phone := "555-5678", latitude := mkRat 340580 10000, longitude := mkRat (-1182500) 10000 }

/-- Third simulated hospital of the source catalog; the coordinates
34.0450 and -118.2300 are written as explicit fractions. -/
def hosp3 : Hospital :=
  { id := "hosp3", name := "County Urgent Care", address := "789 Pine Rd, Suburbia",
    phone := "555-9101", latitude := mkRat 340450 10000, longitude := mkRat (-1182300) 10000 }

/-- The SIMULATED_HOSPITALS catalog of the source. -/
def SIMULATED_HOSPITALS : List Hospital := [hosp1, hosp2, hosp3]

/-- First fixed route of the simulation (primary). -/
def route1 : RouteInfo :=
  { id := "route1", hospital := hosp1, distance := "3.2 km", time := "8 mins",
    trafficStatus := "Light traffic", isPrimary := true }

/-- Second fixed route of the simulation. -/
def route2 : RouteInfo :=
  { id := "route2", hospital := hosp2, distance := "4.1 km", time := "10 mins",
    trafficStatus := "Moderate traffic", isPrimary := false }

/-- Third fixed route of the simulation. -/
def route3 : RouteInfo :=
  { id := "route3", hospital := hosp3, distance := "5.5 km", time := "12 mins",
    trafficStatus := "Light traffic", isPrimary := false }

/-- The simulateRouteCalculation function of the source: the awaited
delay has no semantic content, and the returned value is the fixed
route list, independent of both arguments. -/
def simulateRouteCalculation (location : UserLocation) (emergencyType : String) : List RouteInfo :=
  [route1, route2, route3]

/-- The visible component state of the page: the routes, isLoading and
error React state plus the stored location and emergency type. -/
structure PageState where
  routes : List RouteInfo
  isLoading : Bool
  error : Option String
  userLocation : Option UserLocation
  emergencyType : Option String
deriving DecidableEq

/-- Initial page state: empty routes, loading, no error. -/
def initialPageState : PageState :=
  { routes := [], isLoading := true, error := none, userLocation := none, emergencyType := none }

/-- The continuation of fetchRoutes after the awaited calculation: on
a value, set the no-routes error message when the list is empty and
store the list; on a thrown error, set the failure message and leave
the routes unchanged; in both cases clear the loading flag. -/
def fetchRoutesApply (res : Except Unit (List RouteInfo)) (s : PageState) : PageState :=
  match res with
  | Except.ok rs =>
      let s1 := if rs.length == 0 then { s with error := some noRoutesMsg } else s
      { s1 with routes := rs, isLoading := false }
  | Except.error _ =>
      { s with error := some routeFailMsg, isLoading := false }

/-- The whole system state: the page state plus the set of in-flight
fetches, each recorded with its submission sequence number and the
location and emergency type captured by its closure. -/
structure SysState where
  page : PageState
  pending : List (ℕ × UserLocation × String)
  nextId : ℕ
deriving DecidableEq

/-- Initial system state. -/
def initialSysState : SysState :=
  { page := initialPageState, pending := [], nextId := 0 }

/-- The synchronous part of the page effect for one set of query
parameters: reject a missing emergency type, then build the location
and reject when none can be built, else store the location, raise the
loading flag, clear the error and register a pending fetch. -/
def submitEffect (p : QueryParams) (s : SysState) : SysState :=
  if truthy p.emergencyType then
    let pageT := { s.page with emergencyType := p.emergencyType }
    match resolveLocation p.lat p.lng p.address with
    | none =>
        { s with page := { pageT with error := some missingLocationMsg, isLoading := false } }
    | some loc =>
        { s with
          page := { pageT with userLocation := some loc, isLoading := true, error := none },
          pending := s.pending ++ [(s.nextId, loc, p.emergencyType.getD "")],
          nextId := s.nextId + 1 }
  else
    { s with page := { s.page with error := some missingTypeMsg, isLoading := false } }

/-- Completion of the pending fetch with the given sequence number:
its continuation runs on the current page state with the value of
simulateRouteCalculation at the captured arguments.  The source has
no cancellation, so the continuation runs whether or not a newer
request has been submitted since. -/
def completeEvent (id : ℕ) (s : SysState) : SysState :=
  match s.pending.find? (fun e => e.1 == id) with
  | some e =>
      { s with
        pending := s.pending.filter (fun e2 => !(e2.1 == id)),
        page := fetchRoutesApply (Except.ok (simulateRouteCalculation e.2.1 e.2.2)) s.page }
  | none => s

/-- An observable event of the modelled system. -/
inductive Event where
  | submit (p : QueryParams)
  | complete (id : ℕ)
deriving DecidableEq

/-- One step of the system. -/
def step (s : SysState) : Event → SysState
  | Event.submit p => submitEffect p s
  | Event.complete id => completeEvent id s

/-- Run a sequence of events from the initial state. -/
def runEvents (events : List Event) : SysState :=
  events.foldl step initialSysState

/-- Spec-side decoding of a route time display string into seconds:
the spec communicates durations as durationSeconds, the source
renders minutes, so the numeric prefix times sixty recovers the
duration in seconds (junk decodes to zero). -/
def specDurationSeconds (r : RouteInfo) : ℚ :=
  match parseFloat r.time with
  | JsVal.num q => mkRat (q.num * 60) q.den
  | _ => 0

/-- Spec-side decoding of a route distance display string into meters:
the spec communicates distances as distanceMeters, the source renders
kilometers, so the numeric prefix times one thousand recovers the
distance in meters (junk decodes to zero). -/
def specDistanceMeters (r : RouteInfo) : ℚ :=
  match parseFloat r.distance with
  | JsVal.num q => mkRat (q.num * 1000) q.den
  | _ => 0

/-- Strict lexicographic order on character lists, used for the id
tie-break of the spec ranking. -/
def charListLt : List Char → List Char → Bool
  | [], [] => false
  | [], _ :: _ => true
  | _ :: _, [] => false
  | a :: as, b :: bs => if a < b then true else if b < a then false else charListLt as bs

/-- The strict ranking order of the spec: ascending duration, ties by
ascending distance, further ties by ascending facility id. -/
def specRouteLt (a b : RouteInfo) : Prop :=
  specDurationSeconds a < specDurationSeconds b ∨
    (specDurationSeconds a = specDurationSeconds b ∧
      (specDistanceMeters a < specDistanceMeters b ∨
        (specDistanceMeters a = specDistanceMeters b ∧
          charListLt a.hospital.id.data b.hospital.id.data = true)))

instance : DecidableRel specRouteLt := fun a b => by
  unfold specRouteLt
  infer_instance

/-- A string is a plain decimal numeral when it is nonempty and made
only of digits, a point, or a sign; a display string with a unit
suffix is not. -/
def isPlainNumber (s : String) : Bool :=
  !(s.isEmpty) && s.data.all (fun c => c.isDigit || c == '.' || c == '-')

/-- Character-level suffix test on strings: t is a suffix of s. -/
def strEndsWith (s t : String) : Bool :=
  List.isSuffixOf t.data s.data

/-- The query parameters of the end-to-end cardiac scenario. -/
def cardiacParams : QueryParams :=
  { lat := some "34.0522", lng := some "-118.2437", address := none,
    emergencyType := some "cardiac" }

/-- A sample user location for evaluating the constant calculation. -/
def someLoc : UserLocation :=
  { latitude := JsVal.num (mkRat 340522 10000), longitude := JsVal.num (mkRat (-1182437) 10000),
    address := "Los Angeles" }

/-- The primary-route invariant on a routes value: the list is empty,
or exactly one element is primary and the head is primary. -/
def routesOk (rs : List RouteInfo) : Prop :=
  rs = [] ∨
    (rs.countP (fun r => r.isPrimary) = 1 ∧ rs.head?.map (fun r => r.isPrimary) = some true)

example : parseFloat "34.0522" = JsVal.num (mkRat 340522 10000) := by decide
example : parseFloat "-118.2437" = JsVal.num (mkRat (-1182437) 10000) := by decide
example : parseFloat "" = JsVal.nan := by decide
example : parseFloat "abc" = JsVal.nan := by decide
example : parseFloat "3.2 km" = JsVal.num (mkRat 32 10) := by decide
example : toFixed4 (mkRat 340522 10000) = "34.0522" := by decide
example : toFixed4 (mkRat (-1182437) 10000) = "-118.2437" := by decide
example : resolveLocation (some "34.0522") (some "-118.2437") none =
    some { latitude := JsVal.num (mkRat 340522 10000), longitude := JsVal.num (mkRat (-1182437) 10000),
           address := "Coords: 34.0522, -118.2437" } := by decide

/-- A submit event never changes the routes state: the synchronous
part of the effect only touches the error, loading, location and
emergency-type fields. -/
theorem submitEffect_routes (p : QueryParams) (s : SysState) :
    (submitEffect p s).page.routes = s.page.routes := by
  unfold submitEffect
  split
  · split <;> rfl
  · rfl

/-- The routes stored by the fetch continuation on a value are exactly
that value. -/
theorem fetchRoutesApply_ok_routes (rs : List RouteInfo) (s : PageState) :
    (fetchRoutesApply (Except.ok rs) s).routes = rs := rfl

/-- A complete event preserves the primary-route invariant: it either
does nothing or stores the fixed simulated route list, which has one
primary element at the head. -/
theorem completeEvent_routesOk (id : ℕ) (s : SysState) (h : routesOk s.page.routes) :
    routesOk ((completeEvent id s).page.routes) := by
  unfold completeEvent
  split
  · exact Or.inr ⟨rfl, rfl⟩
  · exact h

/-- The primary-route invariant is preserved by every event. -/
theorem step_routesOk (s : SysState) (e : Event) (h : routesOk s.page.routes) :
    routesOk ((step s e).page.routes) := by
  cases e with
  | submit p =>
      show routesOk ((submitEffect p s).page.routes)
      rw [submitEffect_routes]
      exact h
  | complete id => exact completeEvent_routesOk id s h

/-- The primary-route invariant holds after any event sequence run
from a state satisfying it. -/
theorem foldl_routesOk (l : List Event) (s : SysState) (h : routesOk s.page.routes) :
    routesOk ((l.foldl step s).page.routes) := by
  induction l generalizing s with
  | nil => exact h
  | cons e t ih => exact ih (step s e) (step_routesOk s e h)

/-- C1: in every reachable state of the page, if the routes sequence
is non-empty then exactly one of its elements has isPrimary = true,
and that element is the first one. -/
theorem C1_unique_primary_is_first (events : List Event)
    (h : (runEvents events).page.routes ≠ []) :
    (runEvents events).page.routes.countP (fun r => r.isPrimary) = 1 ∧
    (runEvents events).page.routes.head?.map (fun r => r.isPrimary) = some true := by
  have hInv := foldl_routesOk events initialSysState (Or.inl rfl)
  rcases hInv with h0 | h1
  · exact absurd h0 h
  · exact h1

/-- Witness for C1 at the cardiac request trace, whose routes list is
the non-empty fixed simulated list. -/
theorem C1_unique_primary_is_first_witness :
    (runEvents [Event.submit cardiacParams, Event.complete 0]).page.routes.countP
      (fun r => r.isPrimary) = 1 ∧
    (runEvents [Event.submit cardiacParams, Event.complete 0]).page.routes.head?.map
      (fun r => r.isPrimary) = some true :=
  C1_unique_primary_is_first [Event.submit cardiacParams, Event.complete 0] (by decide)

/-- C2: for every input, the returned route list is sorted strictly
ascending in the spec ranking order: by duration in seconds, ties by
distance in meters, further ties by facility id; in particular the
order is a function of the route data alone and never of arrival
order. -/
theorem C2_routes_sorted_by_spec_order (loc : UserLocation) (cat : String) :
    List.Pairwise specRouteLt (simulateRouteCalculation loc cat) := by
  unfold simulateRouteCalculation
  decide

/-- C3: when the awaited calculation yields an empty route list the
page terminates with the no-routes message and an empty routes state,
and when the calculation throws it terminates with the failure
message; the two terminal outcomes are distinct. -/
theorem C3_empty_outcome_distinct_from_failed (s : PageState) :
    (fetchRoutesApply (Except.ok []) s).error = some noRoutesMsg ∧
    (fetchRoutesApply (Except.ok []) s).isLoading = false ∧
    (fetchRoutesApply (Except.ok []) s).routes = [] ∧
    (fetchRoutesApply (Except.error ()) s).error = some routeFailMsg ∧
    (fetchRoutesApply (Except.error ()) s).isLoading = false ∧
    (fetchRoutesApply (Except.error ()) s).routes = s.routes ∧
    noRoutesMsg ≠ routeFailMsg :=
  ⟨rfl, rfl, rfl, rfl, rfl, rfl, by decide⟩

/-- C4: the cardiac request at coordinates 34.0522, -118.2437 ends
with no error, loading finished, and the routes ordered hosp1 (3200
meters, 480 seconds, light traffic, primary), hosp2 (4100 meters, 600
seconds, moderate traffic), hosp3 (5500 meters, 720 seconds, light
traffic). -/
theorem C4_cardiac_scenario :
    (runEvents [Event.submit cardiacParams, Event.complete 0]).page.error = none ∧
    (runEvents [Event.submit cardiacParams, Event.complete 0]).page.isLoading = false ∧
    (runEvents [Event.submit cardiacParams, Event.complete 0]).page.routes.map
      (fun r => r.hospital.id) = ["hosp1", "hosp2", "hosp3"] ∧
    (runEvents [Event.submit cardiacParams, Event.complete 0]).page.routes.map
      specDurationSeconds = [480, 600, 720] ∧
    (runEvents [Event.submit cardiacParams, Event.complete 0]).page.routes.map
      specDistanceMeters = [3200, 4100, 5500] ∧
    (runEvents [Event.submit cardiacParams, Event.complete 0]).page.routes.map
      (fun r => r.trafficStatus) = ["Light traffic", "Moderate traffic", "Light traffic"] ∧
    (runEvents [Event.submit cardiacParams, Event.complete 0]).page.routes.map
      (fun r => r.isPrimary) = [true, false, false] := by
  decide

/-- C10: the calculation returns the same route list for any two
inputs; the output is independent of both the location and the
emergency category, always the three fixed routes with the first
primary. -/
theorem C10_output_independent_of_inputs (l1 : UserLocation) (c1 : String)
    (l2 : UserLocation) (c2 : String) :
    simulateRouteCalculation l1 c1 = simulateRouteCalculation l2 c2 ∧
    (simulateRouteCalculation l1 c1).map (fun r => r.isPrimary) = [true, false, false] :=
  ⟨rfl, rfl⟩

/-- C5 counterexample: a whitespace-only address with no coordinates
yields an address-only location instead of a failure, and nonempty
unparseable coordinate strings yield a location with NaN coordinates
and a NaN label; the resolver does return partial locations. -/
theorem C5_counterexample :
    (" " : String).data.all isJsSpace = true ∧
    (" " : String) ≠ "" ∧
    resolveLocation none none (some " ") =
      some { latitude := JsVal.null, longitude := JsVal.null, address := " " } ∧
    resolveLocation (some "abc") (some "xyz") none =
      some { latitude := JsVal.nan, longitude := JsVal.nan, address := "Coords: NaN, NaN" } := by
  decide

/-- C5 amended: resolution fails exactly when the coordinate pair is
not fully supplied as nonempty strings and the address parameter is
absent or the empty string; no trimming is applied, so a whitespace
address is accepted, and truthy coordinate strings are accepted even
when they parse to NaN or out-of-range values. -/
theorem C5_amended_failure_condition (lat lng address : Option String) :
    resolveLocation lat lng address = none ↔
      ((truthy lat && truthy lng) = false ∧ truthy address = false) := by
  unfold resolveLocation
  cases h1 : (truthy lat && truthy lng) <;> cases h2 : truthy address <;> simp [h1, h2]

/-- C6: a request with a falsy emergencyType parameter is rejected
with the missing-type message before any location work, whatever the
location parameters are: the stored location stays none, no fetch is
registered, and the message differs from the missing-location
message. -/
theorem C6_missing_category_rejected_first (p : QueryParams)
    (h : truthy p.emergencyType = false) :
    (runEvents [Event.submit p]).page.error = some missingTypeMsg ∧
    (runEvents [Event.submit p]).page.isLoading = false ∧
    (runEvents [Event.submit p]).page.userLocation = none ∧
    (runEvents [Event.submit p]).page.emergencyType = none ∧
    (runEvents [Event.submit p]).pending = [] ∧
    missingTypeMsg ≠ missingLocationMsg := by
  have hrun : runEvents [Event.submit p] =
      { initialSysState with
        page := { initialSysState.page with error := some missingTypeMsg, isLoading := false } } := by
    show submitEffect p initialSysState = _
    unfold submitEffect
    simp [h]
  rw [hrun]
  exact ⟨rfl, rfl, rfl, rfl, rfl, by decide⟩

/-- Witness for C6: a request with valid coordinates but without an
emergency type. -/
theorem C6_missing_category_rejected_first_witness :
    (runEvents [Event.submit
      { lat := some "34.0522", lng := some "-118.2437", address := some "somewhere",
        emergencyType := none }]).page.error = some missingTypeMsg ∧
    (runEvents [Event.submit
      { lat := some "34.0522", lng := some "-118.2437", address := some "somewhere",
        emergencyType := none }]).page.isLoading = false ∧
    (runEvents [Event.submit
      { lat := some "34.0522", lng := some "-118.2437", address := some "somewhere",
        emergencyType := none }]).page.userLocation = none ∧
    (runEvents [Event.submit
      { lat := some "34.0522", lng := some "-118.2437", address := some "somewhere",
        emergencyType := none }]).page.emergencyType = none ∧
    (runEvents [Event.submit
      { lat := some "34.0522", lng := some "-118.2437", address := some "somewhere",
        emergencyType := none }]).pending = [] ∧
    missingTypeMsg ≠ missingLocationMsg :=
  C6_missing_category_rejected_first
    { lat := some "34.0522", lng := some "-118.2437", address := some "somewhere",
      emergencyType := none } (by decide)

/-- A string that parses to a finite number is nonempty. -/
theorem parseFloat_num_ne_empty (s : String) (q : ℚ)
    (h : parseFloat s = JsVal.num q) : s ≠ "" := by
  intro he
  rw [he, show parseFloat "" = JsVal.nan from rfl] at h
  exact JsVal.noConfusion h

/-- C7: when both coordinate parameters parse as finite in-range
numbers, the resolver produces a coordinate-based location; its label
is the supplied address when one is given, and otherwise is
synthesized from the two coordinates rounded to four decimal
places. -/
theorem C7_coordinate_location_label (lat lng : String) (address : Option String) (qa qb : ℚ)
    (hla : parseFloat lat = JsVal.num qa) (hlg : parseFloat lng = JsVal.num qb)
    (hlatRange : -90 ≤ qa ∧ qa ≤ 90) (hlngRange : -180 ≤ qb ∧ qb ≤ 180) :
    resolveLocation (some lat) (some lng) address =
      some { latitude := JsVal.num qa, longitude := JsVal.num qb,
             address :=
               if truthy address then address.getD ""
               else "Coords: " ++ toFixed4 qa ++ ", " ++ toFixed4 qb } := by
  have h1 : lat ≠ "" := parseFloat_num_ne_empty lat qa hla
  have h2 : lng ≠ "" := parseFloat_num_ne_empty lng qb hlg
  have ht : (truthy (some lat) && truthy (some lng)) = true := by
    simp [truthy, h1, h2]
  unfold resolveLocation
  simp [ht, Option.getD, hla, hlg, jsToFixed4]

/-- Witness for C7 at the cardiac request coordinates with no address
supplied: the label is the four-decimal rendering of both
coordinates. -/
theorem C7_coordinate_location_label_witness :
    resolveLocation (some "34.0522") (some "-118.2437") none =
      some { latitude := JsVal.num (mkRat 340522 10000),
             longitude := JsVal.num (mkRat (-1182437) 10000),
             address := "Coords: 34.0522, -118.2437" } := by
  have h := C7_coordinate_location_label "34.0522" "-118.2437" none
    (mkRat 340522 10000) (mkRat (-1182437) 10000)
    (by decide) (by decide) (by decide) (by decide)
  rw [h]
  decide

/-- C8 counterexample: after two submissions of the same valid
request, completing the FIRST (stale) computation already ends the
Loading state and publishes its routes while the latest request is
still pending, so an outcome other than the most recently submitted
request transitions the state out of Loading. -/
theorem C8_counterexample :
    (runEvents [Event.submit cardiacParams, Event.submit cardiacParams,
      Event.complete 0]).page.isLoading = false ∧
    (runEvents [Event.submit cardiacParams, Event.submit cardiacParams,
      Event.complete 0]).pending.map (fun e => e.1) = [1] ∧
    (runEvents [Event.submit cardiacParams, Event.submit cardiacParams,
      Event.complete 0]).page.routes = [route1, route2, route3] := by
  decide

/-- C8 amended: the page performs no cancellation: the completion of
ANY in-flight computation, stale or latest, clears the loading flag
and writes the routes computed from its own captured arguments, so
visible state follows completion order; with the constant simulated
calculation stale and fresh completions write identical route data. -/
theorem C8_amended_no_cancellation (s : SysState) (id : ℕ)
    (e : ℕ × UserLocation × String)
    (h : s.pending.find? (fun x => x.1 == id) = some e) :
    (completeEvent id s).page.isLoading = false ∧
    (completeEvent id s).page.routes = simulateRouteCalculation e.2.1 e.2.2 := by
  unfold completeEvent
  rw [h]
  exact ⟨rfl, rfl⟩

/-- Witness for C8 amended: the stale first computation of two
submitted cardiac requests. -/
theorem C8_amended_no_cancellation_witness :
    (completeEvent 0 (runEvents [Event.submit cardiacParams,
      Event.submit cardiacParams])).page.isLoading = false ∧
    (completeEvent 0 (runEvents [Event.submit cardiacParams,
      Event.submit cardiacParams])).page.routes =
      simulateRouteCalculation
        { latitude := JsVal.num (mkRat 340522 10000),
          longitude := JsVal.num (mkRat (-1182437) 10000),
          address := "Coords: 34.0522, -118.2437" } "cardiac" :=
  C8_amended_no_cancellation
    (runEvents [Event.submit cardiacParams, Event.submit cardiacParams]) 0
    ⟨0, { latitude := JsVal.num (mkRat 340522 10000),
          longitude := JsVal.num (mkRat (-1182437) 10000),
          address := "Coords: 34.0522, -118.2437" }, "cardiac"⟩ (by decide)

/-- C9 counterexample: the first produced route value carries the
display strings 3.2 km and 8 mins in its distance and time fields,
which are not plain numbers in meters and seconds: unit conversion
has already happened inside the core data values. -/
theorem C9_counterexample :
    (simulateRouteCalculation someLoc "cardiac").head?.map (fun r => (r.distance, r.time)) =
      some ("3.2 km", "8 mins") ∧
    isPlainNumber "3.2 km" = false ∧
    isPlainNumber "8 mins" = false := by
  decide

/-- C9 amended: every route value produced by the calculation carries
its distance and duration as preformatted display strings with unit
suffixes (km and mins) rather than as numbers in meters and seconds;
the conversion to display units happens inside the core value, not at
a presentation boundary. -/
theorem C9_amended_display_units_in_core (loc : UserLocation) (cat : String) (r : RouteInfo)
    (h : r ∈ simulateRouteCalculation loc cat) :
    strEndsWith r.distance " km" = true ∧ strEndsWith r.time " mins" = true ∧
    isPlainNumber r.distance = false ∧ isPlainNumber r.time = false := by
  unfold simulateRouteCalculation at h
  simp only [List.mem_cons, List.not_mem_nil, or_false] at h
  rcases h with h | h | h <;> subst h <;> decide

/-- Witness for C9 amended at the first fixed route. -/
theorem C9_amended_display_units_in_core_witness :
    strEndsWith route1.distance " km" = true ∧ strEndsWith route1.time " mins" = true ∧
    isPlainNumber route1.distance = false ∧ isPlainNumber route1.time = false :=
  C9_amended_display_units_in_core someLoc "cardiac" route1 (by decide)
